import Mathlib

/-!
Verification of the rm_viewer core: the folder/document sort engine
(`sortItems`) and the viewer-session controller (`openPdfViewer`) from
`src/rm_viewer/web/app.js`, shallowly embedded in Lean.

Modelling conventions for the sort engine:
* Items carry all fields the comparator can read.  Date-valued fields
  (`lastModified`, `lastOpened`, `dateCreated`) are modelled by their parsed
  epoch-millisecond values (the JS code computes `new Date(s).getTime()`;
  we take the already-parsed integer, leaving the documented NaN edge case
  of unparseable dates out of the model, as no claim concerns it).
* JavaScript `Array.prototype.sort` with a numeric comparator `cmp` is a
  stable sort placing `a` before `b` when `cmp a b ≤ 0`; we embed it as
  `List.mergeSort` (stable) with `le a b := cmp a b ≤ 0`, applied to a copy
  (`[...items]`) of the input, which in the pure embedding is the list value
  itself.  In particular the input list value is untouched by construction.
* The JS `localeCompare` on the lowercased names is modelled as three-way
  code-point comparison returning -1/0/1.

Modelling conventions for the session controller:
* The four collaborator globals (`docManager`, `scrollPlugin`,
  `searchPlugin`, `uiPlugin`) are set-or-undefined references; the model
  records their availability as four booleans.
* Document ids are the strings `'viewer-doc-' + n`; since the prefix is
  fixed and the decimal rendering of `n` is injective, the model identifies
  an id with its numeric part `n`.
* `pageNumber` and `searchQuery` are optional arguments; JS truthiness of a
  number is `≠ 0` (the page numbers in play are naturals) and of a string is
  `≠ ""`.
* Calls made on the collaborators are recorded in an ordered trace.
* JS exceptions: accessing `scrollPlugin.onLayoutReady` while `scrollPlugin`
  is `undefined` throws a `TypeError`.  Mutations performed before the throw
  (counter, current id, manager calls, url) persist, since they act on
  globals; the result therefore carries the state reached, the trace of
  calls issued, and whether the call threw.
* DOM effects (`el.style.display`, `classList`) are presentational and out
  of the modelled state.
-/

namespace RmViewer

/-- An item of the file browser: a folder or a document.  Folders use
`itemCount`/`totalSize`, documents use `pageCount`/`fileSize`; the JS objects
are duck-typed, so the model carries every field the comparator in
`sortItems` can read. -/
structure Item where
  name : String
  lastModified : Int
  lastOpened : Int
  dateCreated : Int
  totalSize : Int
  fileSize : Int
  itemCount : Int
  pageCount : Int
  deriving DecidableEq, Repr

/-- Model of `a.name.toLowerCase().localeCompare(b.name.toLowerCase())`:
three-way string comparison returning -1 / 0 / 1. -/
def localeCompare (s t : String) : Int :=
  if s < t then -1 else if s = t then 0 else 1

/-- The shared tail of the comparator in `sortItems` (app.js:232):
`return desc ? valB - valA : valA - valB`. -/
def dirSub (desc : Bool) (valA valB : Int) : Int :=
  if desc then valB - valA else valA - valB

/-- The comparator closure passed to `.sort` in `sortItems`
(app.js:200-233): a `switch` on `field` selecting the compared values,
with `alpha` returning a locale comparison directly and unknown fields
returning 0. -/
def sortCmp (field : String) (desc : Bool) (isFolder : Bool) (a b : Item) : Int :=
  match field with
  | "modified" => dirSub desc a.lastModified b.lastModified
  | "opened" => dirSub desc a.lastOpened b.lastOpened
  | "created" => dirSub desc a.dateCreated b.dateCreated
  | "size" =>
      dirSub desc (if isFolder then a.totalSize else a.fileSize)
        (if isFolder then b.totalSize else b.fileSize)
  | "pages" =>
      dirSub desc (if isFolder then a.itemCount else a.pageCount)
        (if isFolder then b.itemCount else b.pageCount)
  | "alpha" =>
      let valA := a.name.toLower
      let valB := b.name.toLower
      if desc then localeCompare valB valA else localeCompare valA valB
  | _ => 0

/-- Model of `sortItems(items, field, desc, isFolder)` (app.js:199-236):
`[...items].sort(comparator)`, embedded as a stable merge sort by the
comparator's non-positivity relation. -/
def sortItems (items : List Item) (field : String) (desc : Bool)
    (isFolder : Bool) : List Item :=
  items.mergeSort (fun a b => decide (sortCmp field desc isFolder a b ≤ 0))

/-- Availability of the four external collaborator capabilities. -/
structure Env where
  docManager : Bool
  scrollPlugin : Bool
  searchPlugin : Bool
  uiPlugin : Bool
  deriving DecidableEq, Repr

/-- A call issued to a collaborator, in trace order. -/
inductive Call where
  | openDoc (url : String) (documentId : Nat) (autoActivate : Bool)
  | closeDoc (documentId : Nat)
  | toggleSidebar (documentId : Nat) (side group panel : String)
  | searchAllPages (documentId : Nat) (query : Option String)
  | scrollToPage (documentId : Nat) (pageNumber : Option Nat) (behavior : String)
  deriving DecidableEq, Repr

/-- Recognizer for scroll-to-page calls in a trace. -/
def Call.isScrollCall : Call → Bool
  | .scrollToPage _ _ _ => true
  | _ => false

/-- A registered layout-ready callback: the closure of app.js:314-325,
determined by the values it captures. -/
structure Observer where
  docId : Nat
  needsSearch : Bool
  needsScroll : Bool
  pageNumber : Option Nat
  searchQuery : Option String
  deriving DecidableEq, Repr

/-- The process-wide mutable state the controller reads and writes:
`viewerDocCounter`, `currentDocId`, `currentPdfUrl` (app.js:7-11,186-187)
and the list of currently registered layout-ready callbacks. -/
structure ViewerState where
  viewerDocCounter : Nat
  currentDocId : Option Nat
  currentPdfUrl : Option String
  observers : List Observer
  deriving DecidableEq, Repr

/-- Outcome of one `openPdfViewer` call: the state reached (global mutations
persist even when the call throws), the collaborator calls issued during the
call itself, and whether a TypeError escaped. -/
structure OpenResult where
  state : ViewerState
  calls : List Call
  threw : Bool
  deriving DecidableEq, Repr

/-- JS truthiness of the optional `searchQuery` string argument. -/
def truthyStr : Option String → Bool
  | none => false
  | some s => s ≠ ""

/-- JS truthiness of the optional `pageNumber` numeric argument. -/
def truthyNum : Option Nat → Bool
  | none => false
  | some n => n ≠ 0

/-- The test `pageNumber > 1` on the optional argument (false when absent). -/
def pageGt1 : Option Nat → Bool
  | none => false
  | some n => 1 < n

/-- The close request issued for the previous session, if one existed:
`if (prevDocId) docManager.closeDocument(prevDocId)` (app.js:304). -/
def closeCalls : Option Nat → List Call
  | some p => [Call.closeDoc p]
  | none => []

/-- Flag `needsSearch = searchQuery && searchPlugin && uiPlugin` (app.js:310). -/
def needsSearchB (env : Env) (searchQuery : Option String) : Bool :=
  truthyStr searchQuery && env.searchPlugin && env.uiPlugin

/-- Flag `needsScroll = !needsSearch && pageNumber && pageNumber > 1 &&
scrollPlugin` (app.js:311). -/
def needsScrollB (env : Env) (pageNumber : Option Nat)
    (searchQuery : Option String) : Bool :=
  !needsSearchB env searchQuery && truthyNum pageNumber && pageGt1 pageNumber &&
    env.scrollPlugin

/-- Model of `openPdfViewer(url, pageNumber, searchQuery)` (app.js:298-327). -/
def openPdfViewer (env : Env) (st : ViewerState) (url : String)
    (pageNumber : Option Nat) (searchQuery : Option String) : OpenResult :=
  if !env.docManager then ⟨st, [], false⟩
  else
    let prevDocId := st.currentDocId
    let docId := st.viewerDocCounter + 1
    let st := { st with viewerDocCounter := docId, currentDocId := some docId }
    let calls := [Call.openDoc url docId true] ++ closeCalls prevDocId
    let st := { st with currentPdfUrl := some url }
    let needsSearch := needsSearchB env searchQuery
    let needsScroll := needsScrollB env pageNumber searchQuery
    if needsScroll || needsSearch then
      if env.scrollPlugin then
        ⟨{ st with observers :=
            ⟨docId, needsSearch, needsScroll, pageNumber, searchQuery⟩ :: st.observers },
          calls, false⟩
      else
        -- `scrollPlugin.onLayoutReady` with `scrollPlugin` undefined: TypeError
        ⟨st, calls, true⟩
    else
      ⟨st, calls, false⟩

/-- One registered callback (app.js:314-325) receiving a layout-ready event:
returns whether it unsubscribed and the calls it issued. -/
def observerFire (o : Observer) (eventDocId : Nat) : Bool × List Call :=
  if eventDocId = o.docId then
    (true,
      (if o.needsSearch then
        [Call.toggleSidebar o.docId "right" "main" "search-panel",
         Call.searchAllPages o.docId o.searchQuery]
      else []) ++
      (if o.needsScroll then
        [Call.scrollToPage o.docId o.pageNumber "instant"]
      else []))
  else (false, [])

/-- Delivery of a layout-ready event to every registered callback: callbacks
that fired have unsubscribed; the others stay registered. -/
def deliverLayoutReady (st : ViewerState) (eventDocId : Nat) :
    ViewerState × List Call :=
  ({ st with observers := st.observers.filter fun o => !(observerFire o eventDocId).1 },
    (st.observers.map fun o => (observerFire o eventDocId).2).flatten)

/-- One request to open a document, as issued by a click handler. -/
structure OpenReq where
  url : String
  pageNumber : Option Nat
  searchQuery : Option String
  deriving DecidableEq, Repr

/-- Fold a sequence of `openPdfViewer` calls over the state, collecting the
session ids allocated along the way (in order of allocation). -/
def runOpens (env : Env) (st : ViewerState) : List OpenReq → ViewerState × List Nat
  | [] => (st, [])
  | r :: rs =>
    let res := openPdfViewer env st r.url r.pageNumber r.searchQuery
    let rest := runOpens env res.state rs
    (rest.1, (if env.docManager then [st.viewerDocCounter + 1] else []) ++ rest.2)

/-- The observer the registration branch of `openPdfViewer` creates. -/
def mkObserver (env : Env) (st : ViewerState) (pageNumber : Option Nat)
    (searchQuery : Option String) : Observer :=
  ⟨st.viewerDocCounter + 1, needsSearchB env searchQuery,
    needsScrollB env pageNumber searchQuery, pageNumber, searchQuery⟩

theorem localeCompare_nonpos (s t : String) : localeCompare s t ≤ 0 ↔ s ≤ t := by
  unfold localeCompare
  split_ifs with h1 h2
  · simp [le_of_lt h1]
  · simp [le_of_eq h2]
  · constructor
    · intro h; omega
    · intro h
      exact absurd (lt_of_le_of_ne h h2) (fun hc => h1 hc)

theorem dirSub_trans (desc : Bool) (x y z : Int)
    (h1 : dirSub desc x y ≤ 0) (h2 : dirSub desc y z ≤ 0) :
    dirSub desc x z ≤ 0 := by
  cases desc <;> simp [dirSub] at * <;> omega

theorem dirSub_total (desc : Bool) (x y : Int) :
    dirSub desc x y ≤ 0 ∨ dirSub desc y x ≤ 0 := by
  cases desc <;> simp [dirSub] <;> omega

theorem alphaIf_trans (desc : Bool) (s t u : String)
    (h1 : (if desc then localeCompare t s else localeCompare s t) ≤ 0)
    (h2 : (if desc then localeCompare u t else localeCompare t u) ≤ 0) :
    (if desc then localeCompare u s else localeCompare s u) ≤ 0 := by
  cases desc <;> simp [localeCompare_nonpos] at h1 h2 ⊢ <;>
    first
      | exact le_trans h1 h2
      | exact le_trans h2 h1

theorem alphaIf_total (desc : Bool) (s t : String) :
    (if desc then localeCompare t s else localeCompare s t) ≤ 0 ∨
      (if desc then localeCompare s t else localeCompare t s) ≤ 0 := by
  cases desc <;> simp [localeCompare_nonpos] <;> exact le_total _ _

/-- The comparator relation is transitive for every field. -/
theorem sortCmp_trans (field : String) (desc isFolder : Bool) (a b c : Item)
    (hab : sortCmp field desc isFolder a b ≤ 0)
    (hbc : sortCmp field desc isFolder b c ≤ 0) :
    sortCmp field desc isFolder a c ≤ 0 := by
  unfold sortCmp at *
  split at hab
  · exact dirSub_trans desc _ _ _ hab hbc
  · exact dirSub_trans desc _ _ _ hab hbc
  · exact dirSub_trans desc _ _ _ hab hbc
  · exact dirSub_trans desc _ _ _ hab hbc
  · exact dirSub_trans desc _ _ _ hab hbc
  · exact alphaIf_trans desc _ _ _ hab hbc
  · exact hab

/-- The comparator relation is total for every field. -/
theorem sortCmp_total (field : String) (desc isFolder : Bool) (a b : Item) :
    sortCmp field desc isFolder a b ≤ 0 ∨ sortCmp field desc isFolder b a ≤ 0 := by
  unfold sortCmp
  split
  · exact dirSub_total desc _ _
  · exact dirSub_total desc _ _
  · exact dirSub_total desc _ _
  · exact dirSub_total desc _ _
  · exact dirSub_total desc _ _
  · exact alphaIf_total desc _ _
  · exact Or.inl le_rfl

theorem dirSub_swap (x y : Int) : dirSub true x y = dirSub false y x := by
  simp [dirSub]

theorem dirSub_zero_iff (x y : Int) : dirSub true x y = 0 ↔ dirSub false x y = 0 := by
  simp [dirSub]; omega

theorem sortCmp_modified (desc isFolder : Bool) (a b : Item) :
    sortCmp "modified" desc isFolder a b = dirSub desc a.lastModified b.lastModified := rfl

theorem sortCmp_opened (desc isFolder : Bool) (a b : Item) :
    sortCmp "opened" desc isFolder a b = dirSub desc a.lastOpened b.lastOpened := rfl

theorem sortCmp_created (desc isFolder : Bool) (a b : Item) :
    sortCmp "created" desc isFolder a b = dirSub desc a.dateCreated b.dateCreated := rfl

theorem sortCmp_size (desc isFolder : Bool) (a b : Item) :
    sortCmp "size" desc isFolder a b =
      dirSub desc (if isFolder then a.totalSize else a.fileSize)
        (if isFolder then b.totalSize else b.fileSize) := rfl

theorem sortCmp_pages (desc isFolder : Bool) (a b : Item) :
    sortCmp "pages" desc isFolder a b =
      dirSub desc (if isFolder then a.itemCount else a.pageCount)
        (if isFolder then b.itemCount else b.pageCount) := rfl

/-- The `default:` arm of the comparator switch: any field outside the six
known ones compares every pair as 0. -/
theorem sortCmp_default (field : String) (desc isFolder : Bool) (a b : Item)
    (h : ¬(field = "modified" ∨ field = "opened" ∨ field = "created" ∨
        field = "size" ∨ field = "pages" ∨ field = "alpha")) :
    sortCmp field desc isFolder a b = 0 := by
  unfold sortCmp
  split <;> simp_all

/-- Direction is implemented by swapping subtraction operands: for every
non-`alpha` field, the descending comparator on `(a, b)` is the ascending
comparator on `(b, a)`. -/
theorem sortCmp_swap (field : String) (isFolder : Bool) (a b : Item)
    (h : field ≠ "alpha") :
    sortCmp field true isFolder a b = sortCmp field false isFolder b a := by
  by_cases h1 : field = "modified"
  · subst h1; rw [sortCmp_modified, sortCmp_modified, dirSub_swap]
  by_cases h2 : field = "opened"
  · subst h2; rw [sortCmp_opened, sortCmp_opened, dirSub_swap]
  by_cases h3 : field = "created"
  · subst h3; rw [sortCmp_created, sortCmp_created, dirSub_swap]
  by_cases h4 : field = "size"
  · subst h4; rw [sortCmp_size, sortCmp_size, dirSub_swap]
  by_cases h5 : field = "pages"
  · subst h5; rw [sortCmp_pages, sortCmp_pages, dirSub_swap]
  rw [sortCmp_default field true isFolder a b (by tauto),
    sortCmp_default field false isFolder b a (by tauto)]

/-- Ties compare as 0 in both directions for every non-`alpha` field. -/
theorem sortCmp_zero_iff (field : String) (isFolder : Bool) (a b : Item)
    (h : field ≠ "alpha") :
    sortCmp field true isFolder a b = 0 ↔ sortCmp field false isFolder a b = 0 := by
  by_cases h1 : field = "modified"
  · subst h1; rw [sortCmp_modified, sortCmp_modified, dirSub_zero_iff]
  by_cases h2 : field = "opened"
  · subst h2; rw [sortCmp_opened, sortCmp_opened, dirSub_zero_iff]
  by_cases h3 : field = "created"
  · subst h3; rw [sortCmp_created, sortCmp_created, dirSub_zero_iff]
  by_cases h4 : field = "size"
  · subst h4; rw [sortCmp_size, sortCmp_size, dirSub_zero_iff]
  by_cases h5 : field = "pages"
  · subst h5; rw [sortCmp_pages, sortCmp_pages, dirSub_zero_iff]
  rw [sortCmp_default field true isFolder a b (by tauto),
    sortCmp_default field false isFolder a b (by tauto)]

theorem pairwise_of_forall_rel {α : Type} {R : α → α → Prop} (h : ∀ a b, R a b) :
    ∀ l : List α, l.Pairwise R
  | [] => .nil
  | a :: l => .cons (fun b _ => h a b) (pairwise_of_forall_rel h l)

/-- The output of `sortItems` is ordered by the comparator. -/
theorem sorted_sortItems (items : List Item) (field : String) (desc isFolder : Bool) :
    (sortItems items field desc isFolder).Pairwise
      (fun a b => sortCmp field desc isFolder a b ≤ 0) := by
  have h := @List.sorted_mergeSort Item
    (fun a b => decide (sortCmp field desc isFolder a b ≤ 0))
    (fun a b c h1 h2 => decide_eq_true
      (sortCmp_trans field desc isFolder a b c (of_decide_eq_true h1) (of_decide_eq_true h2)))
    (fun a b => by simpa using sortCmp_total field desc isFolder a b)
    items
  exact h.imp fun hx => of_decide_eq_true hx

/-- Equation for the registration branch: document manager available, a
navigation or search intent present, scroll collaborator available. -/
theorem openPdfViewer_registers (env : Env) (st : ViewerState) (url : String)
    (pageNumber : Option Nat) (searchQuery : Option String)
    (hdm : env.docManager = true) (hscr : env.scrollPlugin = true)
    (hneed : (needsScrollB env pageNumber searchQuery ||
      needsSearchB env searchQuery) = true) :
    openPdfViewer env st url pageNumber searchQuery =
      ⟨{ st with
          viewerDocCounter := st.viewerDocCounter + 1,
          currentDocId := some (st.viewerDocCounter + 1),
          currentPdfUrl := some url,
          observers := mkObserver env st pageNumber searchQuery :: st.observers },
        [Call.openDoc url (st.viewerDocCounter + 1) true] ++ closeCalls st.currentDocId,
        false⟩ := by
  unfold openPdfViewer mkObserver
  simp [hdm, hscr, hneed]

/-- Regardless of the navigation branch taken, with the manager available a
call issues exactly open-then-close, sets the current url and current id, and
bumps the counter. -/
theorem openPdfViewer_effects (env : Env) (st : ViewerState) (url : String)
    (pageNumber : Option Nat) (searchQuery : Option String)
    (hdm : env.docManager = true) :
    (openPdfViewer env st url pageNumber searchQuery).calls =
      [Call.openDoc url (st.viewerDocCounter + 1) true] ++ closeCalls st.currentDocId ∧
    (openPdfViewer env st url pageNumber searchQuery).state.currentPdfUrl = some url ∧
    (openPdfViewer env st url pageNumber searchQuery).state.currentDocId =
      some (st.viewerDocCounter + 1) ∧
    (openPdfViewer env st url pageNumber searchQuery).state.viewerDocCounter =
      st.viewerDocCounter + 1 := by
  unfold openPdfViewer
  simp [hdm]
  split_ifs <;> simp

/-- A call either leaves the registered observers unchanged, or returns
without throwing having pushed exactly the new observer. -/
theorem openPdfViewer_observers_cases (env : Env) (st : ViewerState) (url : String)
    (pageNumber : Option Nat) (searchQuery : Option String) :
    (openPdfViewer env st url pageNumber searchQuery).state.observers = st.observers ∨
    ((openPdfViewer env st url pageNumber searchQuery).threw = false ∧
      (openPdfViewer env st url pageNumber searchQuery).state.observers =
        mkObserver env st pageNumber searchQuery :: st.observers) := by
  unfold openPdfViewer mkObserver
  by_cases hdm : env.docManager
  · by_cases hneed : (needsScrollB env pageNumber searchQuery ||
      needsSearchB env searchQuery) = true
    · by_cases hsc : env.scrollPlugin
      · simp [hdm, hneed, hsc]
      · simp [hdm, hneed, hsc]
    · simp [hdm, hneed]
  · simp [hdm]

/-- How the counter evolves across one call. -/
theorem openPdfViewer_counter (env : Env) (st : ViewerState) (url : String)
    (pageNumber : Option Nat) (searchQuery : Option String) :
    (openPdfViewer env st url pageNumber searchQuery).state.viewerDocCounter =
      if env.docManager then st.viewerDocCounter + 1 else st.viewerDocCounter := by
  unfold openPdfViewer
  by_cases hdm : env.docManager
  · simp [hdm]
    split_ifs <;> simp
  · simp [hdm]

theorem observerFire_ne (o : Observer) (e : Nat) (h : e ≠ o.docId) :
    observerFire o e = (false, []) := by
  unfold observerFire
  simp [h]

theorem observerFire_self_fst (o : Observer) : (observerFire o o.docId).1 = true := by
  unfold observerFire
  simp

theorem mem_deliver_of_ne (st2 : ViewerState) (o : Observer) (e : Nat)
    (h : o ∈ st2.observers) (hne : e ≠ o.docId) :
    o ∈ (deliverLayoutReady st2 e).1.observers := by
  unfold deliverLayoutReady
  simp only [List.mem_filter]
  exact ⟨h, by simp [observerFire_ne o e hne]⟩

theorem not_mem_deliver_self (st2 : ViewerState) (o : Observer) :
    o ∉ (deliverLayoutReady st2 o.docId).1.observers := by
  unfold deliverLayoutReady
  simp only [List.mem_filter]
  intro hc
  simp [observerFire_self_fst] at hc

/-- Invariant of `runOpens`: every allocated id exceeds the starting counter,
the counter never decreases, and the allocated ids are strictly increasing. -/
theorem runOpens_invariant (env : Env) (reqs : List OpenReq) :
    ∀ st : ViewerState,
      (∀ i ∈ (runOpens env st reqs).2, st.viewerDocCounter < i) ∧
      st.viewerDocCounter ≤ (runOpens env st reqs).1.viewerDocCounter ∧
      (runOpens env st reqs).2.Pairwise (· < ·) := by
  induction reqs with
  | nil => intro st; simp [runOpens]
  | cons r rs ih =>
    intro st
    obtain ⟨ih1, ih2, ih3⟩ :=
      ih (openPdfViewer env st r.url r.pageNumber r.searchQuery).state
    have hc := openPdfViewer_counter env st r.url r.pageNumber r.searchQuery
    by_cases hdm : env.docManager
    · simp only [hdm, if_true] at hc
      simp only [runOpens, hdm, if_true, List.singleton_append]
      refine ⟨?_, ?_, ?_⟩
      · intro i hi
        rcases List.mem_cons.mp hi with rfl | hi
        · omega
        · have := ih1 i hi; omega
      · omega
      · exact List.Pairwise.cons (fun i hi => by have := ih1 i hi; omega) ih3
    · rw [Bool.not_eq_true] at hdm
      simp only [hdm, Bool.false_eq_true, if_false] at hc
      simp only [runOpens, hdm, Bool.false_eq_true, if_false, List.nil_append]
      exact ⟨fun i hi => by have := ih1 i hi; omega, by omega, ih3⟩

/-- C1: with the document manager available and a session for a document Y
current, `openPdfViewer` on locator X issues `open(X, newId, autoActivate=true)`
strictly before `close(Y's id)` — the manager trace of the call is exactly
those two calls in that order — and the current document locator is updated
to X. -/
theorem open_before_close_updates_locator (env : Env) (st : ViewerState)
    (url : String) (pageNumber : Option Nat) (searchQuery : Option String) (y : Nat)
    (hdm : env.docManager = true) (hcur : st.currentDocId = some y) :
    (openPdfViewer env st url pageNumber searchQuery).calls =
      [Call.openDoc url (st.viewerDocCounter + 1) true, Call.closeDoc y] ∧
    (openPdfViewer env st url pageNumber searchQuery).state.currentPdfUrl =
      some url := by
  obtain ⟨h1, h2, h3, h4⟩ := openPdfViewer_effects env st url pageNumber searchQuery hdm
  rw [hcur] at h1
  exact ⟨h1, h2⟩

theorem open_before_close_updates_locator_witness :
    ((⟨true, true, true, true⟩ : Env).docManager = true) ∧
    ((⟨3, some 2, none, []⟩ : ViewerState).currentDocId = some 2) ∧
    ((openPdfViewer ⟨true, true, true, true⟩ ⟨3, some 2, none, []⟩ "x.pdf" none none).calls =
        [Call.openDoc "x.pdf" 4 true, Call.closeDoc 2] ∧
      (openPdfViewer ⟨true, true, true, true⟩ ⟨3, some 2, none, []⟩
          "x.pdf" none none).state.currentPdfUrl = some "x.pdf") :=
  ⟨rfl, rfl,
    open_before_close_updates_locator ⟨true, true, true, true⟩ ⟨3, some 2, none, []⟩
      "x.pdf" none none 2 rfl rfl⟩

/-- C2 counterexample: a call supplying both a page number and a search term,
with the search and UI collaborators available but the scroll collaborator
absent, throws (TypeError on `scrollPlugin.onLayoutReady`) and registers no
layout-ready observer, so the search-reveal action is never performed on
layout-ready — refuting the claim as stated, which promises the search-reveal
behavior whenever search and UI are available. -/
theorem search_priority_counterexample :
    (openPdfViewer ⟨true, false, true, true⟩ ⟨0, none, none, []⟩
        "b.pdf" (some 5) (some "love")).threw = true ∧
    (openPdfViewer ⟨true, false, true, true⟩ ⟨0, none, none, []⟩
        "b.pdf" (some 5) (some "love")).state.observers = [] :=
  ⟨rfl, rfl⟩

/-- C2 amended: for every call that supplies both a page number and a search
term, when the search and UI collaborators are available and the scroll
collaborator — through which the layout-ready observer is registered — is
also available (with the document manager present, as an open is performed),
only the search-reveal action is performed on layout-ready; the scroll-to-page
action is never performed for that call, neither in the call's own trace nor
by its observer on any event. -/
theorem search_priority_with_scroll_available (env : Env) (st : ViewerState)
    (url : String) (p : Nat) (s : String) (e : Nat)
    (hdm : env.docManager = true) (hscr : env.scrollPlugin = true)
    (hse : env.searchPlugin = true) (hui : env.uiPlugin = true) (hs : s ≠ "") :
    (openPdfViewer env st url (some p) (some s)).threw = false ∧
    (openPdfViewer env st url (some p) (some s)).state.observers =
      (⟨st.viewerDocCounter + 1, true, false, some p, some s⟩ : Observer) ::
        st.observers ∧
    observerFire ⟨st.viewerDocCounter + 1, true, false, some p, some s⟩
        (st.viewerDocCounter + 1) =
      (true,
        [Call.toggleSidebar (st.viewerDocCounter + 1) "right" "main" "search-panel",
         Call.searchAllPages (st.viewerDocCounter + 1) (some s)]) ∧
    ((observerFire ⟨st.viewerDocCounter + 1, true, false, some p, some s⟩ e).2.all
      fun c => ! c.isScrollCall) = true ∧
    ((openPdfViewer env st url (some p) (some s)).calls.all
      fun c => ! c.isScrollCall) = true := by
  have hns : needsSearchB env (some s) = true := by
    simp [needsSearchB, truthyStr, hse, hui, hs]
  have hnsc : needsScrollB env (some p) (some s) = false := by
    simp [needsScrollB, hns]
  have hmk : mkObserver env st (some p) (some s) =
      ⟨st.viewerDocCounter + 1, true, false, some p, some s⟩ := by
    simp [mkObserver, hns, hnsc]
  rw [openPdfViewer_registers env st url (some p) (some s) hdm hscr (by simp [hns])]
  refine ⟨rfl, by simp [hmk], by simp [observerFire], ?_, ?_⟩
  · by_cases he : e = st.viewerDocCounter + 1 <;>
      simp [observerFire, he, Call.isScrollCall]
  · cases hcd : st.currentDocId <;> simp [hcd, closeCalls, Call.isScrollCall]

theorem search_priority_with_scroll_available_witness :
    ((⟨true, true, true, true⟩ : Env).docManager = true) ∧
    ((⟨true, true, true, true⟩ : Env).scrollPlugin = true) ∧
    ((⟨true, true, true, true⟩ : Env).searchPlugin = true) ∧
    ((⟨true, true, true, true⟩ : Env).uiPlugin = true) ∧
    ("love" ≠ "") ∧
    ((openPdfViewer ⟨true, true, true, true⟩ ⟨0, none, none, []⟩
        "b.pdf" (some 5) (some "love")).threw = false ∧
      (openPdfViewer ⟨true, true, true, true⟩ ⟨0, none, none, []⟩
          "b.pdf" (some 5) (some "love")).state.observers =
        [⟨1, true, false, some 5, some "love"⟩] ∧
      observerFire ⟨1, true, false, some 5, some "love"⟩ 1 =
        (true,
          [Call.toggleSidebar 1 "right" "main" "search-panel",
           Call.searchAllPages 1 (some "love")]) ∧
      ((observerFire ⟨1, true, false, some 5, some "love"⟩ 9).2.all
        fun c => ! c.isScrollCall) = true ∧
      ((openPdfViewer ⟨true, true, true, true⟩ ⟨0, none, none, []⟩
          "b.pdf" (some 5) (some "love")).calls.all
        fun c => ! c.isScrollCall) = true) :=
  ⟨rfl, rfl, rfl, rfl, by decide,
    search_priority_with_scroll_available ⟨true, true, true, true⟩
      ⟨0, none, none, []⟩ "b.pdf" 5 "love" 9 rfl rfl rfl rfl (by decide)⟩

/-- C3: the claim (and the spec's error-handling design) says `openDocument`
never throws for any combination of absent collaborators, checking each
before use; the code slips on one path: with the document manager, search and
UI collaborators present but the scroll collaborator absent, a call with a
search term reaches `scrollPlugin.onLayoutReady` (app.js:314) on an undefined
`scrollPlugin` and throws a TypeError.  Evaluation of the model at that
failing input. -/
theorem openDocument_throws_when_scroll_missing :
    (openPdfViewer ⟨true, false, true, true⟩ ⟨7, some 3, none, []⟩
        "c.pdf" none (some "term")).threw = true := rfl

/-- C4: when the document-manager collaborator is unavailable, `openPdfViewer`
is a complete no-op: the state (counter, current id, current locator,
observers) is returned unchanged, no collaborator call is issued — in
particular no close for the previous session — and nothing is thrown. -/
theorem noop_without_docManager (env : Env) (st : ViewerState) (url : String)
    (pageNumber : Option Nat) (searchQuery : Option String)
    (h : env.docManager = false) :
    openPdfViewer env st url pageNumber searchQuery = ⟨st, [], false⟩ := by
  unfold openPdfViewer
  simp [h]

theorem noop_without_docManager_witness :
    ((⟨false, true, true, true⟩ : Env).docManager = false) ∧
    openPdfViewer ⟨false, true, true, true⟩ ⟨5, some 4, some "old.pdf", []⟩
        "new.pdf" (some 2) (some "q") =
      ⟨⟨5, some 4, some "old.pdf", []⟩, [], false⟩ :=
  ⟨rfl,
    noop_without_docManager ⟨false, true, true, true⟩ ⟨5, some 4, some "old.pdf", []⟩
      "new.pdf" (some 2) (some "q") rfl⟩

/-- C5: any observer registered by a non-throwing `openPdfViewer` call is
scoped to that call's freshly allocated session id: it ignores (fires no
action, stays registered through) every event with a different document id,
it does fire on the matching id, and a delivery of the matching id removes it
from the registered observers of any later state — so it fires at most once
and is not left behind across subsequent opens once its event has arrived.
(The model's `deliverLayoutReady` removes exactly the observers that fired;
`st2` ranges over arbitrary later states containing the observer.) -/
theorem layout_ready_observer_scoped_one_shot (env : Env)
    (st st2 : ViewerState) (url : String) (pageNumber : Option Nat)
    (searchQuery : Option String) (o : Observer) (e : Nat)
    (hmem : o ∈ (openPdfViewer env st url pageNumber searchQuery).state.observers)
    (hnew : o ∉ st.observers) (hmem2 : o ∈ st2.observers) (hne : e ≠ o.docId) :
    o.docId = st.viewerDocCounter + 1 ∧
    observerFire o e = (false, []) ∧
    o ∈ (deliverLayoutReady st2 e).1.observers ∧
    (observerFire o o.docId).1 = true ∧
    o ∉ (deliverLayoutReady st2 o.docId).1.observers := by
  have hco : o = mkObserver env st pageNumber searchQuery := by
    rcases openPdfViewer_observers_cases env st url pageNumber searchQuery with
      hsame | ⟨-, hreg⟩
    · rw [hsame] at hmem
      exact absurd hmem hnew
    · rw [hreg] at hmem
      rcases List.mem_cons.mp hmem with h | h
      · exact h
      · exact absurd h hnew
  exact ⟨by rw [hco]; rfl, observerFire_ne o e hne,
    mem_deliver_of_ne st2 o e hmem2 hne, observerFire_self_fst o,
    not_mem_deliver_self st2 o⟩

theorem layout_ready_observer_scoped_one_shot_witness :
    ((⟨1, false, true, some 5, none⟩ : Observer) ∈
      (openPdfViewer ⟨true, true, true, true⟩ ⟨0, none, none, []⟩
          "a.pdf" (some 5) none).state.observers) ∧
    ((⟨1, false, true, some 5, none⟩ : Observer) ∉
      (⟨0, none, none, []⟩ : ViewerState).observers) ∧
    ((⟨1, false, true, some 5, none⟩ : Observer) ∈
      (⟨1, some 1, some "a.pdf", [⟨1, false, true, some 5, none⟩]⟩ :
        ViewerState).observers) ∧
    (2 ≠ (⟨1, false, true, some 5, none⟩ : Observer).docId) ∧
    ((⟨1, false, true, some 5, none⟩ : Observer).docId = 1 ∧
      observerFire ⟨1, false, true, some 5, none⟩ 2 = (false, []) ∧
      (⟨1, false, true, some 5, none⟩ : Observer) ∈
        (deliverLayoutReady
          ⟨1, some 1, some "a.pdf", [⟨1, false, true, some 5, none⟩]⟩ 2).1.observers ∧
      (observerFire ⟨1, false, true, some 5, none⟩
          (⟨1, false, true, some 5, none⟩ : Observer).docId).1 = true ∧
      (⟨1, false, true, some 5, none⟩ : Observer) ∉
        (deliverLayoutReady
          ⟨1, some 1, some "a.pdf", [⟨1, false, true, some 5, none⟩]⟩
          (⟨1, false, true, some 5, none⟩ : Observer).docId).1.observers) :=
  ⟨by decide, by decide, by decide, by decide,
    layout_ready_observer_scoped_one_shot ⟨true, true, true, true⟩
      ⟨0, none, none, []⟩
      ⟨1, some 1, some "a.pdf", [⟨1, false, true, some 5, none⟩]⟩
      "a.pdf" (some 5) none ⟨1, false, true, some 5, none⟩ 2
      (by decide) (by decide) (by decide) (by decide)⟩

/-- C6: across every sequence of `openPdfViewer` calls, the session ids
allocated (one per call that passes the document-manager check, in call
order) are strictly increasing — the process-wide counter is never
decremented and no id is ever reused — and the counter only grows.  At most
one session is current at every moment by construction: the state's
`currentDocId` is a single optional id. -/
theorem session_ids_strictly_increasing (env : Env) (st : ViewerState)
    (reqs : List OpenReq) :
    (runOpens env st reqs).2.Pairwise (· < ·) ∧
    st.viewerDocCounter ≤ (runOpens env st reqs).1.viewerDocCounter :=
  ⟨(runOpens_invariant env reqs st).2.2, (runOpens_invariant env reqs st).2.1⟩

/-- C7: for every input sequence, every field, every direction and every item
kind, `sortItems` returns a permutation of its input.  The input sequence
itself is untouched: the source copies the array (`[...items]`) before
sorting, and in the pure embedding the input list value is immutable by
construction. -/
theorem sortItems_is_permutation (items : List Item) (field : String)
    (desc isFolder : Bool) :
    (sortItems items field desc isFolder).Perm items :=
  List.mergeSort_perm items _

/-- C8: for every non-`alpha` field, descending sort is the reverse-compatible
complement of ascending sort: the descending comparator is the ascending one
with swapped operands, ties compare as 0 in both directions, the two outputs
are permutations of each other, and the reverse of the descending output is
ascending-ordered (so the two outputs are reverses of each other up to
reordering among tied elements, the ascending output being ascending-ordered
as well). -/
theorem sortItems_descending_complement (items : List Item) (field : String)
    (isFolder : Bool) (a b : Item) (h : field ≠ "alpha") :
    sortCmp field true isFolder a b = sortCmp field false isFolder b a ∧
    (sortCmp field true isFolder a b = 0 ↔ sortCmp field false isFolder a b = 0) ∧
    (sortItems items field true isFolder).Perm (sortItems items field false isFolder) ∧
    (sortItems items field true isFolder).reverse.Pairwise
      (fun x y => sortCmp field false isFolder x y ≤ 0) ∧
    (sortItems items field false isFolder).Pairwise
      (fun x y => sortCmp field false isFolder x y ≤ 0) := by
  refine ⟨sortCmp_swap field isFolder a b h, sortCmp_zero_iff field isFolder a b h,
    ?_, ?_, sorted_sortItems items field false isFolder⟩
  · exact (List.mergeSort_perm items _).trans (List.mergeSort_perm items _).symm
  · rw [List.pairwise_reverse]
    exact (sorted_sortItems items field true isFolder).imp
      fun {x y} hxy => by rwa [sortCmp_swap field isFolder x y h] at hxy

theorem sortItems_descending_complement_witness :
    (("size" : String) ≠ "alpha") ∧
    (sortCmp "size" true false ⟨"A", 0, 0, 0, 0, 500000, 0, 0⟩
          ⟨"B", 0, 0, 0, 0, 2000000, 0, 0⟩ =
        sortCmp "size" false false ⟨"B", 0, 0, 0, 0, 2000000, 0, 0⟩
          ⟨"A", 0, 0, 0, 0, 500000, 0, 0⟩ ∧
      (sortCmp "size" true false ⟨"A", 0, 0, 0, 0, 500000, 0, 0⟩
            ⟨"B", 0, 0, 0, 0, 2000000, 0, 0⟩ = 0 ↔
        sortCmp "size" false false ⟨"A", 0, 0, 0, 0, 500000, 0, 0⟩
            ⟨"B", 0, 0, 0, 0, 2000000, 0, 0⟩ = 0) ∧
      (sortItems [⟨"A", 0, 0, 0, 0, 500000, 0, 0⟩, ⟨"B", 0, 0, 0, 0, 2000000, 0, 0⟩]
          "size" true false).Perm
        (sortItems [⟨"A", 0, 0, 0, 0, 500000, 0, 0⟩, ⟨"B", 0, 0, 0, 0, 2000000, 0, 0⟩]
          "size" false false) ∧
      (sortItems [⟨"A", 0, 0, 0, 0, 500000, 0, 0⟩, ⟨"B", 0, 0, 0, 0, 2000000, 0, 0⟩]
          "size" true false).reverse.Pairwise
        (fun x y => sortCmp "size" false false x y ≤ 0) ∧
      (sortItems [⟨"A", 0, 0, 0, 0, 500000, 0, 0⟩, ⟨"B", 0, 0, 0, 0, 2000000, 0, 0⟩]
          "size" false false).Pairwise
        (fun x y => sortCmp "size" false false x y ≤ 0)) :=
  ⟨by decide,
    sortItems_descending_complement
      [⟨"A", 0, 0, 0, 0, 500000, 0, 0⟩, ⟨"B", 0, 0, 0, 0, 2000000, 0, 0⟩]
      "size" false ⟨"A", 0, 0, 0, 0, 500000, 0, 0⟩ ⟨"B", 0, 0, 0, 0, 2000000, 0, 0⟩
      (by decide)⟩

/-- C9: for every field value outside the six known fields, the comparator
returns 0 for every pair, and `sortItems` returns the input order unchanged
(the stable sort under an everywhere-0 comparator is the identity); no error
is signalled — the function is total. -/
theorem unknown_field_sort_noop (items : List Item) (field : String)
    (desc isFolder : Bool) (a b : Item)
    (h : field ∉ (["modified", "opened", "created", "size", "pages", "alpha"] :
      List String)) :
    sortCmp field desc isFolder a b = 0 ∧
    sortItems items field desc isFolder = items := by
  have h6 : ¬(field = "modified" ∨ field = "opened" ∨ field = "created" ∨
      field = "size" ∨ field = "pages" ∨ field = "alpha") := by
    simpa using h
  refine ⟨sortCmp_default field desc isFolder a b h6, ?_⟩
  unfold sortItems
  apply List.mergeSort_of_sorted
  exact pairwise_of_forall_rel
    (fun x y => by simp [sortCmp_default field desc isFolder x y h6]) items

theorem unknown_field_sort_noop_witness :
    (("bogus" : String) ∉ (["modified", "opened", "created", "size", "pages", "alpha"] :
      List String)) ∧
    (sortCmp "bogus" true false ⟨"A", 1, 2, 3, 4, 5, 6, 7⟩ ⟨"B", 9, 9, 9, 9, 9, 9, 9⟩ = 0 ∧
      sortItems [⟨"A", 1, 2, 3, 4, 5, 6, 7⟩, ⟨"B", 9, 9, 9, 9, 9, 9, 9⟩] "bogus" true false =
        [⟨"A", 1, 2, 3, 4, 5, 6, 7⟩, ⟨"B", 9, 9, 9, 9, 9, 9, 9⟩]) :=
  ⟨by decide,
    unknown_field_sort_noop
      [⟨"A", 1, 2, 3, 4, 5, 6, 7⟩, ⟨"B", 9, 9, 9, 9, 9, 9, 9⟩]
      "bogus" true false ⟨"A", 1, 2, 3, 4, 5, 6, 7⟩ ⟨"B", 9, 9, 9, 9, 9, 9, 9⟩
      (by decide)⟩

/-- C10: when a search term is supplied but the search or the UI collaborator
is absent, with the document manager and scroll collaborator present and a
page number greater than 1 supplied, the call falls back to page navigation:
it registers a scroll observer for the new session id, which performs
`scrollToPage(sessionId, p, 'instant')` on the matching layout-ready event
and nothing on any other event. -/
theorem search_unavailable_falls_back_to_scroll (env : Env) (st : ViewerState)
    (url : String) (p : Nat) (s : String) (e : Nat)
    (hdm : env.docManager = true) (hscr : env.scrollPlugin = true)
    (hmiss : env.searchPlugin = false ∨ env.uiPlugin = false)
    (hs : s ≠ "") (hp : 1 < p) (hne : e ≠ st.viewerDocCounter + 1) :
    (openPdfViewer env st url (some p) (some s)).threw = false ∧
    (openPdfViewer env st url (some p) (some s)).state.observers =
      (⟨st.viewerDocCounter + 1, false, true, some p, some s⟩ : Observer) ::
        st.observers ∧
    observerFire ⟨st.viewerDocCounter + 1, false, true, some p, some s⟩
        (st.viewerDocCounter + 1) =
      (true, [Call.scrollToPage (st.viewerDocCounter + 1) (some p) "instant"]) ∧
    observerFire ⟨st.viewerDocCounter + 1, false, true, some p, some s⟩ e =
      (false, []) := by
  have hns : needsSearchB env (some s) = false := by
    rcases hmiss with hm | hm <;> simp [needsSearchB, hm]
  have hp0 : p ≠ 0 := by omega
  have hnsc : needsScrollB env (some p) (some s) = true := by
    simp [needsScrollB, hns, truthyNum, pageGt1, hscr, hp, hp0]
  have hmk : mkObserver env st (some p) (some s) =
      ⟨st.viewerDocCounter + 1, false, true, some p, some s⟩ := by
    simp [mkObserver, hns, hnsc]
  rw [openPdfViewer_registers env st url (some p) (some s) hdm hscr (by simp [hnsc])]
  exact ⟨rfl, by simp [hmk], by simp [observerFire],
    observerFire_ne ⟨st.viewerDocCounter + 1, false, true, some p, some s⟩ e hne⟩

theorem search_unavailable_falls_back_to_scroll_witness :
    ((⟨true, true, false, true⟩ : Env).docManager = true) ∧
    ((⟨true, true, false, true⟩ : Env).scrollPlugin = true) ∧
    ((⟨true, true, false, true⟩ : Env).searchPlugin = false ∨
      (⟨true, true, false, true⟩ : Env).uiPlugin = false) ∧
    ("love" ≠ "") ∧ (1 < 5) ∧ (3 ≠ 1) ∧
    ((openPdfViewer ⟨true, true, false, true⟩ ⟨0, none, none, []⟩
        "d.pdf" (some 5) (some "love")).threw = false ∧
      (openPdfViewer ⟨true, true, false, true⟩ ⟨0, none, none, []⟩
          "d.pdf" (some 5) (some "love")).state.observers =
        [⟨1, false, true, some 5, some "love"⟩] ∧
      observerFire ⟨1, false, true, some 5, some "love"⟩ 1 =
        (true, [Call.scrollToPage 1 (some 5) "instant"]) ∧
      observerFire ⟨1, false, true, some 5, some "love"⟩ 3 = (false, [])) :=
  ⟨rfl, rfl, Or.inl rfl, by decide, by decide, by decide,
    search_unavailable_falls_back_to_scroll ⟨true, true, false, true⟩
      ⟨0, none, none, []⟩ "d.pdf" 5 "love" 3 rfl rfl (Or.inl rfl)
      (by decide) (by decide) (by decide)⟩

end RmViewer
